import Mathlib

/-!
Verification of the aX Platform channel plugin dispatch lifecycle.

This file gives a shallow embedding of the plugin's dispatch handling code
(`src/unnamed/part_003`, with the near-duplicate `src/extension/channel/ax-channel.ts`):
the dedup/timeout state tracker (`checkDispatchState`, `markDispatchCompleted`,
the periodic TTL sweep), the session registry (the `dispatchSessions` map and the
`sessionKeyIndex` reverse index, with its deferred cleanup), the response sanitizer
(`sanitizeAgentResponse`), the internal-error classifier and recovery-notice
cooldown of outbound `sendText`, and the sync/async mode selection of the
dispatch handler.  JavaScript `Map`s are modelled as association lists,
`Date.now()` timestamps as `Nat` milliseconds, and `string | undefined` fields
as `Option String` (with JS truthiness made explicit where the code relies on it).
-/

/-! ## Association-list maps (model of JS `Map` for lookup purposes) -/

def lookupM {α : Type} (m : List (String × α)) (k : String) : Option α :=
  match m with
  | [] => none
  | (k2, v) :: r => if k2 = k then some v else lookupM r k

def eraseM {α : Type} (m : List (String × α)) (k : String) : List (String × α) :=
  m.filter (fun p => p.1 != k)

def insertM {α : Type} (m : List (String × α)) (k : String) (v : α) : List (String × α) :=
  (k, v) :: eraseM m k

theorem lookupM_eraseM_self {α : Type} (m : List (String × α)) (k : String) :
    lookupM (eraseM m k) k = none := by
  induction m with
  | nil => rfl
  | cons p r ih =>
      obtain ⟨k1, v⟩ := p
      by_cases h : k1 = k
      · simpa [eraseM, List.filter_cons, h] using ih
      · simpa [eraseM, List.filter_cons, bne_iff_ne, h, lookupM] using ih

theorem lookupM_eraseM_ne {α : Type} (m : List (String × α)) (k k2 : String) (h : k2 ≠ k) :
    lookupM (eraseM m k) k2 = lookupM m k2 := by
  induction m with
  | nil => rfl
  | cons p r ih =>
      obtain ⟨k1, v⟩ := p
      by_cases hp : k1 = k
      · have h1 : ¬ k1 = k2 := by
          intro hc
          exact h (by rw [← hc, hp])
        simpa [eraseM, List.filter_cons, hp, lookupM, h1, Ne.symm h] using ih
      · by_cases hq : k1 = k2
        · simp [eraseM, List.filter_cons, bne_iff_ne, hp, lookupM, hq, h]
        · simpa [eraseM, List.filter_cons, bne_iff_ne, hp, lookupM, hq, h] using ih

theorem lookupM_insertM_self {α : Type} (m : List (String × α)) (k : String) (v : α) :
    lookupM (insertM m k v) k = some v := by
  simp [insertM, lookupM]

theorem lookupM_insertM_ne {α : Type} (m : List (String × α)) (k k2 : String) (v : α)
    (h : k2 ≠ k) : lookupM (insertM m k v) k2 = lookupM m k2 := by
  have hk : ¬ k = k2 := fun hc => h hc.symm
  simp [insertM, lookupM, hk, lookupM_eraseM_ne m k k2 h]

/-! ## Character helpers

JS `\s` (for the ASCII range plus NBSP, which is all the source patterns rely on)
and case-insensitive comparison as performed by `text.toLowerCase()` /
the `i` regex flag on ASCII letters. -/

def isWsChar (c : Char) : Bool :=
  c = ' ' || c = '\t' || c = '\n' || c = '\r' || c = '\x0b' || c = '\x0c' || c.toNat = 160

/-- Lower-case code point of a character, for ASCII letters (the only letters
appearing in the source patterns). -/
def lcNat (c : Char) : Nat :=
  if 65 ≤ c.toNat ∧ c.toNat ≤ 90 then c.toNat + 32 else c.toNat

def lcEq (a b : Char) : Bool := lcNat a == lcNat b

/-- Drop a case-insensitive literal pattern from the head of a character list,
returning the remainder, or `none` when the pattern is not a prefix. -/
def ciDrop (pat : List Char) (s : List Char) : Option (List Char) :=
  match pat, s with
  | [], rest => some rest
  | _ :: _, [] => none
  | p :: ps, c :: cs => if lcEq p c then ciDrop ps cs else none

/-- Drop a case-insensitive sequence of literal words separated by `\s*`
(used for the `User\s*id` alternative in the metadata-line patterns). -/
def ciDropWords (ws : List (List Char)) (s : List Char) : Option (List Char) :=
  match ws with
  | [] => some s
  | [w] => ciDrop w s
  | w :: rest =>
      match ciDrop w s with
      | none => none
      | some r => ciDropWords rest (List.dropWhile isWsChar r)

/-- Case-insensitive substring test: JS `text.toLowerCase().includes(pat)` for a
lower-case ASCII pattern. -/
def ciHasSub (pat : List Char) : List Char → Bool
  | [] => pat.isEmpty
  | c :: rest => (ciDrop pat (c :: rest)).isSome || ciHasSub pat rest

/-- JS `String.prototype.trim` on both ends. -/
def trimChars (s : List Char) : List Char :=
  (((s.dropWhile isWsChar).reverse).dropWhile isWsChar).reverse

/-! ## Response sanitizer (`sanitizeAgentResponse`, part_003 lines 134-208)

Each numbered regex pass of the source is hand-compiled to a character-list
function.  The `i`/`g`/`m` flags and the greedy/lazy structure of each pattern
are reproduced; see the per-rule comments for the one local simplification
(line-based treatment of the `m`-flag passes 4-7). -/

def reasoningPat : List Char := ("reasoning:").toList

/-- Find the first underscore and return everything after it (the lazy
`[\s\S]*?_` part of passes 1 and 2). -/
def afterUnderscore : List Char → Option (List Char)
  | [] => none
  | c :: r => if c = '_' then some r else afterUnderscore r

/-- Match `Reasoning:\s*_[\s\S]*?_\s*` at the head of the list (case-insensitive)
and return the unmatched remainder. -/
def matchReasoningItalic (s : List Char) : Option (List Char) :=
  match ciDrop reasoningPat s with
  | none => none
  | some rest =>
      match List.dropWhile isWsChar rest with
      | '_' :: r2 =>
          match afterUnderscore r2 with
          | some after => some (List.dropWhile isWsChar after)
          | none => none
      | _ => none

/-- Pass 1: strip a leading `Reasoning: _..._` block (`text.replace(/^Reasoning:\s*_[\s\S]*?_\s*/i, "")`). -/
def rule1 (s : List Char) : List Char :=
  (matchReasoningItalic s).getD s

/-- Pass 2: strip every `Reasoning: _..._` block anywhere in the text
(`/Reasoning:\s*_[\s\S]*?_\s*/gi`), removing non-overlapping matches left to
right exactly as a global `replace` does.  The fuel is the list length; every
successful match consumes at least the ten pattern characters, so the fuel
never runs out. -/
def rule2Fuel : Nat → List Char → List Char
  | 0, s => s
  | _ + 1, [] => []
  | fuel + 1, c :: rest =>
      match matchReasoningItalic (c :: rest) with
      | some t => rule2Fuel fuel t
      | none => c :: rule2Fuel fuel rest

def rule2 (s : List Char) : List Char := rule2Fuel s.length s

/-- The `(?:\n(?!\n)[^\n]*)*` tail of pass 3: keep consuming a newline plus the
following line while the newline is not immediately followed by another newline,
returning the unmatched remainder. -/
def skipNonBlankLines : Nat → List Char → List Char
  | 0, s => s
  | _ + 1, [] => []
  | fuel + 1, c :: r =>
      if c = '\n' then
        match r with
        | '\n' :: _ => c :: r
        | _ => skipNonBlankLines fuel (List.dropWhile (fun x => x != '\n') r)
      else c :: r

/-- Pass 3: strip a leading plain-text `Reasoning:` block up to a blank line
(`/^Reasoning:\s*[^\n]*(?:\n(?!\n)[^\n]*)*/i`).  The greedy `\s*` may itself
cross newlines, exactly as in JS. -/
def rule3 (s : List Char) : List Char :=
  match ciDrop reasoningPat s with
  | none => s
  | some rest =>
      let r1 := List.dropWhile isWsChar rest
      let r2 := List.dropWhile (fun c => c != '\n') r1
      skipNonBlankLines r2.length r2

/-! ### Line-based view for the multiline (`m`-flag) passes 4-7 -/

def splitLinesFuel : Nat → List Char → List (List Char)
  | 0, s => [s]
  | _ + 1, [] => [[]]
  | fuel + 1, s =>
      let line := s.takeWhile (fun c => c != '\n')
      match s.dropWhile (fun c => c != '\n') with
      | [] => [line]
      | _ :: r => line :: splitLinesFuel fuel r

def toLines (s : List Char) : List (List Char) := splitLinesFuel s.length s

def joinLines : List (List Char) → List Char
  | [] => []
  | [l] => l
  | l :: ls => l ++ '\n' :: joinLines ls

def identityWord : List Char := ("identity").toList

/-- Header line of pass 4 (`/^🧭\s*Identity\s*\n(?:...)*/gim`): the compass
emoji, optional whitespace, `Identity`, then only whitespace up to the line
break consumed by the pattern's `\s*\n`. -/
def isIdentityHeader (l : List Char) : Bool :=
  match l with
  | c :: r =>
      if c = '🧭' then
        match ciDrop identityWord (List.dropWhile isWsChar r) with
        | some rest => (List.dropWhile isWsChar rest).isEmpty
        | none => false
      else false
  | [] => false

def rule4Labels : List (List (List Char)) :=
  [[("channel").toList], [("user").toList, ("id").toList], [("allowfrom").toList],
   [("session").toList], [("runtime").toList], [("host").toList], [("model").toList]]

/-- A line consumed by pass 4's `(?:(?:Channel|User\s*id|AllowFrom|Session|Runtime|Host|Model)[^\n]*\n?)*`. -/
def isRule4LabelLine (l : List Char) : Bool :=
  rule4Labels.any (fun lab => (ciDropWords lab l).isSome)

/-- Pass 4: remove each 🧭 Identity block (the header line plus the following
run of label lines).  The JS pattern also consumes the removed lines' newlines,
which deleting whole lines reproduces. -/
def rule4Fuel : Nat → List (List Char) → List (List Char)
  | 0, ls => ls
  | _ + 1, [] => []
  | fuel + 1, l :: ls =>
      if isIdentityHeader l then rule4Fuel fuel (List.dropWhile isRule4LabelLine ls)
      else l :: rule4Fuel fuel ls

def rule4 (ls : List (List Char)) : List (List Char) := rule4Fuel ls.length ls

def openClawWord : List Char := ("openclaw").toList

/-- Header line of pass 5 (`/^🦞\s*OpenClaw[^\n]*(?:\n(?![\n\r])[^\n]*)*/gim`). -/
def isClawHeader (l : List Char) : Bool :=
  match l with
  | c :: r => c = '🦞' && (ciDrop openClawWord (List.dropWhile isWsChar r)).isSome
  | [] => false

/-- Continuation line of pass 5: the `(?![\n\r])` lookahead admits any line that
is nonempty and does not begin with a carriage return. -/
def isClawCont (l : List Char) : Bool :=
  match l with
  | [] => false
  | c :: _ => c != '\r'

def rule5Fuel : Nat → List (List Char) → List (List Char)
  | 0, ls => ls
  | _ + 1, [] => []
  | fuel + 1, l :: ls =>
      if isClawHeader l then rule5Fuel fuel (List.dropWhile isClawCont ls)
      else l :: rule5Fuel fuel ls

def rule5 (ls : List (List Char)) : List (List Char) := rule5Fuel ls.length ls

/-- The decoration class `[*_\x60~>]` of passes 6 and 7 (the fifth character is
the backtick). -/
def decoChar (c : Char) : Bool :=
  c = '*' || c = '_' || c = Char.ofNat 96 || c = '~' || c = '>'

/-- The trailing decoration class `[*_\x60~]` (no `>`). -/
def decoCharNoGt (c : Char) : Bool :=
  c = '*' || c = '_' || c = Char.ofNat 96 || c = '~'

def rule6Labels : List (List (List Char)) :=
  [[("runtime").toList], [("channel").toList], [("session").toList], [("agent").toList],
   [("identity").toList], [("allowfrom").toList], [("user").toList, ("id").toList]]

/-- After a matched label, match `(?:\s*[*_\x60~]+)?\s*:` and return the
remainder after the colon.  Both branches of the optional group are tried, as
the regex engine does; the character classes are disjoint from whitespace and
from the colon, so maximal runs need no further backtracking. -/
def afterLabelColon (r : List Char) : Option (List Char) :=
  let withDeco :=
    let a := List.dropWhile isWsChar r
    if (List.takeWhile decoCharNoGt a).isEmpty then none
    else
      match List.dropWhile isWsChar (List.dropWhile decoCharNoGt a) with
      | ':' :: rest => some rest
      | _ => none
  match withDeco with
  | some rest => some rest
  | none =>
      match List.dropWhile isWsChar r with
      | ':' :: rest => some rest
      | _ => none

/-- Pass 6 line test
(`/^\s*(?:[*_\x60~>]+\s*)?(?:Runtime|Channel|Session|Agent|Identity|AllowFrom|User\s*id)(?:\s*[*_\x60~]+)?\s*:[^\n]*$/gim`)
restricted to a single line.  (In JS the leading `\s*` could additionally absorb
a preceding run of whitespace-only lines; no input evaluated in this development
has such a line before a metadata line.) -/
def lineMatches6 (l : List Char) : Bool :=
  let attempt := fun (r : List Char) =>
    rule6Labels.any (fun lab =>
      match ciDropWords lab r with
      | some r1 => (afterLabelColon r1).isSome
      | none => false)
  let r0 := List.dropWhile isWsChar l
  (if (List.takeWhile decoChar r0).isEmpty then false
   else attempt (List.dropWhile isWsChar (List.dropWhile decoChar r0))) || attempt r0

def toggleWords : List (List Char) :=
  [("on").toList, ("off").toList, ("enabled").toList, ("disabled").toList]

def rule7Labels : List (List Char) := [("thinking").toList, ("reasoning").toList]

/-- Pass 7 line test
(`/^\s*(?:[*_\x60~>]+\s*)?(?:Thinking|Reasoning)(?:\s*[*_\x60~]+)?\s*:\s*(?:[*_\x60~]+\s*)?(?:on|off|enabled|disabled)\s*$/gim`),
restricted to a single line as in pass 6. -/
def lineMatches7 (l : List Char) : Bool :=
  let tryWord := fun (w : List Char) (rr : List Char) =>
    match ciDrop w rr with
    | some r4 => (List.dropWhile isWsChar r4).isEmpty
    | none => false
  let attempt := fun (r : List Char) =>
    rule7Labels.any (fun lab =>
      match ciDrop lab r with
      | some r1 =>
          match afterLabelColon r1 with
          | some r2 =>
              let r3 := List.dropWhile isWsChar r2
              (if (List.takeWhile decoCharNoGt r3).isEmpty then false
               else toggleWords.any (fun w =>
                 tryWord w (List.dropWhile isWsChar (List.dropWhile decoCharNoGt r3)))) ||
              toggleWords.any (fun w => tryWord w r3)
          | none => false
      | none => false)
  let r0 := List.dropWhile isWsChar l
  (if (List.takeWhile decoChar r0).isEmpty then false
   else attempt (List.dropWhile isWsChar (List.dropWhile decoChar r0))) || attempt r0

/-- The char class `[A-Z*#\[0-9]` tested against the character after an
underscore in pass 8. -/
def rule8Class (c : Char) : Bool :=
  (decide ('A' ≤ c) && decide (c ≤ 'Z')) || c = '*' || c = '#' || c = '[' ||
  (decide ('0' ≤ c) && decide (c ≤ '9'))

/-- One iteration of pass 8's backward scan at index `i`: if `text[i]` is an
underscore, `text[i+1]` is in the class, the trimmed tail from `i+1` has at
least ten characters and the text before `i` contains an underscore, the tail
replaces the whole text. -/
def rule8Try (s : List Char) (i : Nat) : Option (List Char) :=
  match List.drop i s with
  | c :: rest =>
      match rest with
      | a :: _ =>
          if c = '_' && rule8Class a then
            let tail := trimChars rest
            if 10 ≤ tail.length then
              if (List.take i s).contains '_' then some tail else none
            else none
          else none
      | [] => none
  | [] => none

def rule8Go (s : List Char) : Nat → List Char
  | 0 => (rule8Try s 0).getD s
  | i + 1 =>
      match rule8Try s (i + 1) with
      | some t => t
      | none => rule8Go s i

/-- Pass 8: the italic self-talk preamble loop, scanning indices from
`length - 2` down to `0` and stopping at the first hit. -/
def rule8 (s : List Char) : List Char :=
  if 2 ≤ s.length then rule8Go s (s.length - 2) else s

/-- Pass 9: `text.replace(/\n{3,}/g, "\n\n")` — collapse runs of three or more
newlines to exactly two. -/
def rule9Fuel : Nat → List Char → List Char
  | 0, s => s
  | _ + 1, [] => []
  | fuel + 1, c :: r =>
      if c = '\n' then
        let nls := List.takeWhile (fun x => x == '\n') r
        let rest := List.dropWhile (fun x => x == '\n') r
        (if 2 ≤ nls.length then ['\n', '\n'] else c :: nls) ++ rule9Fuel fuel rest
      else c :: rule9Fuel fuel r

/-- The response sanitizer (part_003 lines 134-208): the nine passes in source
order, followed by the final `trim`. -/
def sanitizeAgentResponse (raw : String) : String :=
  if raw = "" then raw
  else
    let t1 := rule1 raw.toList
    let t2 := rule2 t1
    let t3 := rule3 t2
    let l4 := rule4 (toLines t3)
    let l5 := rule5 l4
    let l6 := l5.map (fun l => if lineMatches6 l then [] else l)
    let l7 := l6.map (fun l => if lineMatches7 l then [] else l)
    let t7 := joinLines l7
    let t8 := rule8 t7
    let t9 := rule9Fuel t8.length t8
    String.mk (trimChars t9)

/-! ## Internal-error classifier and recovery-notice cooldown
(part_003 lines 81-116 and the outbound `sendText`, lines 826-891) -/

inductive ErrKind
  | context
  | rate
deriving DecidableEq

def contextPatterns : List (List Char) :=
  [("context overflow").toList, ("prompt too large for the model").toList,
   ("try /reset").toList, ("try /new").toList]

def ratePatterns : List (List Char) :=
  [("api rate limit reached").toList, ("rate limit").toList,
   ("too many requests").toList]

/-- `classifyInternalErrorText` (part_003 lines 100-109): lower-case the text
and look for any pattern of the context family, then of the rate family. -/
def classifyInternalErrorText (text : String) : Option ErrKind :=
  if contextPatterns.any (fun p => ciHasSub p text.toList) then some ErrKind.context
  else if ratePatterns.any (fun p => ciHasSub p text.toList) then some ErrKind.rate
  else none

/-- `buildRecoveryNotice` (part_003 lines 111-116). -/
def buildRecoveryNotice (kind : ErrKind) : String :=
  match kind with
  | ErrKind.context =>
      "Quick heads up — I’m compacting internal context and will follow with a clean response shortly."
  | ErrKind.rate =>
      "Quick heads up — I hit temporary model capacity and am retrying now. I’ll send the full response shortly."

def RECOVERY_NOTICE_COOLDOWN_MS : Nat := 2 * 60 * 1000

/-- Result of the outbound `sendText`, reduced to the observables the claims
are about: the returned flags and the content actually handed to `callAxTool`
(`none` when nothing is sent). -/
structure SendOut where
  ok : Bool
  suppressed : Bool
  sentContent : Option String
deriving DecidableEq

/-- The classification/cooldown/sanitize portion of `sendText` (part_003 lines
859-886), starting after the auth token and target space have been resolved
(pure I/O) and assuming the MCP call succeeds.  `cool` is the module-level
`recoveryNoticeBySpace` map; `now` is `Date.now()`.  JS
`recoveryNoticeBySpace.get(spaceId) || 0` is `getD 0`; `now - lastNoticeAt` is
truncated subtraction, which suppresses in exactly the same cases. -/
def sendTextModel (spaceId text : String) (now : Nat) (cool : List (String × Nat)) :
    SendOut × List (String × Nat) :=
  match classifyInternalErrorText text with
  | some kind =>
      let lastNoticeAt := (lookupM cool spaceId).getD 0
      if now - lastNoticeAt < RECOVERY_NOTICE_COOLDOWN_MS then
        ({ ok := true, suppressed := true, sentContent := none }, cool)
      else
        let replaced := buildRecoveryNotice kind
        let cool2 := insertM cool spaceId now
        ({ ok := true, suppressed := false,
           sentContent := some (sanitizeAgentResponse replaced) }, cool2)
  | none =>
      ({ ok := true, suppressed := false,
         sentContent := some (sanitizeAgentResponse text) }, cool)

/-! ## Dispatch deduplication state tracker (part_003 lines 210-319) -/

def DEDUP_TTL_MS : Nat := 15 * 60 * 1000
def BACKEND_TIMEOUT_MS : Nat := 30 * 1000

inductive DStatus
  | inProgress
  | completedS
deriving DecidableEq

/-- The `DispatchState` record (part_003 lines 211-215). -/
structure DispatchState where
  status : DStatus
  startedAt : Nat
  response : Option String
deriving DecidableEq

inductive CheckStatus
  | newDispatch
  | stillInProgress
  | timedOut
  | alreadyCompleted
deriving DecidableEq

structure CheckOut where
  status : CheckStatus
  response : Option String
  elapsedMs : Option Nat
deriving DecidableEq

/-- `checkDispatchState` (part_003 lines 284-308), returning the result record
together with the updated `dispatchStates` map (the JS function mutates the
module-level map when it inserts the fresh `in_progress` entry). -/
def checkDispatchState (m : List (String × DispatchState)) (dispatchId : String) (now : Nat) :
    CheckOut × List (String × DispatchState) :=
  match lookupM m dispatchId with
  | none =>
      (⟨CheckStatus.newDispatch, none, none⟩,
       insertM m dispatchId ⟨DStatus.inProgress, now, none⟩)
  | some st =>
      match st.status with
      | DStatus.inProgress =>
          let elapsedMs := now - st.startedAt
          if BACKEND_TIMEOUT_MS ≤ elapsedMs then
            (⟨CheckStatus.timedOut, none, some elapsedMs⟩, m)
          else
            (⟨CheckStatus.stillInProgress, none, some elapsedMs⟩, m)
      | DStatus.completedS =>
          (⟨CheckStatus.alreadyCompleted, st.response, none⟩, m)

/-- `markDispatchCompleted` (part_003 lines 313-319): only an existing entry is
updated; a missing identifier leaves the map untouched. -/
def markDispatchCompleted (m : List (String × DispatchState)) (dispatchId response : String) :
    List (String × DispatchState) :=
  match lookupM m dispatchId with
  | some st => insertM m dispatchId ⟨DStatus.completedS, st.startedAt, some response⟩
  | none => m

/-- One run of the periodic cleanup body (`startPeriodicCleanup`, part_003
lines 249-259): delete every entry with `now - startedAt > DEDUP_TTL_MS`. -/
def sweepExpired (m : List (String × DispatchState)) (now : Nat) :
    List (String × DispatchState) :=
  m.filter (fun p => decide (now - p.2.startedAt ≤ DEDUP_TTL_MS))

/-! ## Dispatch payload, session registry entries, and the HTTP handler
(part_003 `createDispatchHandler`, lines 1047-1417, and `processDispatchAsync`,
lines 425-662) -/

/-- The inbound webhook payload fields the handler reads.  `string | undefined`
fields are `Option String`; `context_data` is kept opaque. -/
structure AxDispatchPayload where
  dispatch_id : String
  agent_id : String
  agent_handle : Option String
  agent_name : Option String
  space_id : Option String
  space_name : Option String
  sender_handle : Option String
  sender_type : Option String
  auth_token : Option String
  mcp_endpoint : Option String
  user_message : Option String
  content : Option String
  callback_url : Option String
  callback_api_key : Option String
  heartbeat_url : Option String
  message_id : Option String
  org_id : Option String
  context_data : Option String
deriving DecidableEq

/-- JS `a || b` for a `string | undefined` left operand and string default:
the default is used when the field is absent or the empty string. -/
def jsStr (a : Option String) (b : String) : String :=
  match a with
  | some s => if s = "" then b else s
  | none => b

/-- JS truthiness of a `string | undefined` value. -/
def jsTruthy (a : Option String) : Bool :=
  match a with
  | some s => s != ""
  | none => false

/-- The `DispatchSession` record stored in `dispatchSessions` (part_003 lines
1181-1194). -/
structure DispatchSession where
  dispatchId : String
  sessionKey : String
  agentId : String
  agentHandle : String
  spaceId : String
  spaceName : String
  senderHandle : String
  senderType : Option String
  authToken : String
  mcpEndpoint : Option String
  contextData : Option String
  startTime : Nat
deriving DecidableEq

/-- Session construction from the payload (part_003 lines 1181-1194). -/
def mkSession (p : AxDispatchPayload) (dispatchId sessionKey : String) (now : Nat) :
    DispatchSession :=
  { dispatchId := dispatchId
    sessionKey := sessionKey
    agentId := p.agent_id
    agentHandle := jsStr p.agent_handle (jsStr p.agent_name ("agent"))
    spaceId := jsStr p.space_id ("")
    spaceName := jsStr p.space_name ("aX")
    senderHandle := jsStr p.sender_handle ("unknown")
    senderType := p.sender_type
    authToken := jsStr p.auth_token ("")
    mcpEndpoint := p.mcp_endpoint
    contextData := p.context_data
    startTime := now }

/-- A JSON body written by `sendJson`, restricted to the fields the handler
emits. -/
structure HttpResp where
  code : Nat
  status : String
  dispatch_id : String
  response : Option String
  error : Option String
  mode : Option String
deriving DecidableEq

/-- The final-response selection shared by the sync handler (part_003 lines
1381-1392) and `processDispatchAsync` (lines 604-617): delivered text is
sanitized; otherwise the reported error, the chose-not-to-respond marker (no
`deliver` call at all), or the generic no-response marker. -/
def finalResponseText (responseText : String) (deliverCallCount : Nat)
    (lastError : Option String) : String :=
  if responseText = "" then
    match lastError with
    | some e => "[Agent error: " ++ e ++ "]"
    | none =>
        if deliverCallCount = 0 then "[Agent chose not to respond]"
        else "[No response from agent]"
  else sanitizeAgentResponse responseText

/-- The synthetic timeout message of the handler's `timed_out` branch
(part_003 lines 1136-1148): minutes are `Math.floor(elapsedMs / 60000)`. -/
def timeoutMessage (elapsedMs : Nat) : String :=
  "[Request timed out after " ++ toString (elapsedMs / 60000) ++ " minutes]"

/-- The three module-level maps of the channel module. -/
structure GState where
  dispatchStates : List (String × DispatchState)
  dispatchSessions : List (String × DispatchSession)
  sessionKeyIndex : List (String × String)
deriving DecidableEq

def emptyG : GState := ⟨[], [], []⟩

/-- `payload.dispatch_id || \x60ext-...\x60` (part_003 line 1121). -/
def dispatchIdOf (p : AxDispatchPayload) (now : Nat) : String :=
  if p.dispatch_id = "" then "ext-" ++ toString now else p.dispatch_id

/-- The synchronous prefix of one POST `/ax/dispatch` request (part_003 lines
1120-1275), starting after body read, signature check and route resolution
(`sessionKey` is the resolved `route.sessionKey`).  Returns the new global
state and the HTTP response written before the handler suspends: the dedup
short-circuits, the 400 validation error and the async ACK respond
immediately; a `new` dispatch without callback URL runs the sync worker and
responds only when it finishes (`none` here, see `Ev.workerDone`). -/
def deliverStep (s : GState) (p : AxDispatchPayload) (sessionKey : String) (now : Nat) :
    GState × Option HttpResp :=
  let d := dispatchIdOf p now
  let chk := checkDispatchState s.dispatchStates d now
  match chk.1.status with
  | CheckStatus.stillInProgress =>
      ({ s with dispatchStates := chk.2 },
       some ⟨200, "success", d, some (""), none, none⟩)
  | CheckStatus.timedOut =>
      let msg := timeoutMessage ((chk.1.elapsedMs).getD 0)
      ({ s with dispatchStates := markDispatchCompleted chk.2 d msg },
       some ⟨200, "success", d, some msg, none, none⟩)
  | CheckStatus.alreadyCompleted =>
      let body :=
        match chk.1.response with
        | some r => if r = "" then "[Already processed]" else r
        | none => "[Already processed]"
      ({ s with dispatchStates := chk.2 },
       some ⟨200, "success", d, some body, none, none⟩)
  | CheckStatus.newDispatch =>
      let sess := mkSession p d sessionKey now
      let sessions2 := insertM s.dispatchSessions d sess
      let index2 := insertM s.sessionKeyIndex sessionKey d
      let s2 : GState := ⟨chk.2, sessions2, index2⟩
      let message := jsStr p.user_message (jsStr p.content (""))
      if message = "" then
        (s2, some ⟨400, "error", d, none, some ("No message content"), none⟩)
      else if jsTruthy p.callback_url then
        (s2, some ⟨200, "accepted", d, none, none, some ("async")⟩)
      else
        (s2, none)

/-- In the handler's catch block (part_003 lines 1404-1414) the guard is
`typeof dispatchId !== "undefined"`.  `dispatchId` is declared with `const`
inside the `try` block, so no binding named `dispatchId` is in scope in the
catch block; `typeof dispatchId` there evaluates to `"undefined"` and the
guarded `dispatchStates.delete(dispatchId)` never executes. -/
def catchBlockSeesDispatchId : Bool := false

/-- Events of the single-threaded dispatch lifecycle.  Mutation of the shared
maps happens only in the synchronous sections these events denote:
`deliver` is the handler prefix above; `workerDone` is the sync handler (or
`processDispatchAsync`) resuming after the dispatcher resolved, computing
`finalResponseText` and calling `markDispatchCompleted`; `workerThrew` is the
handler's catch block after the dispatcher threw; `sweep` is one tick of the
periodic dedup cleanup. -/
inductive Ev
  | deliver (p : AxDispatchPayload) (sessionKey : String) (now : Nat)
  | workerDone (d : String) (responseText : String) (deliverCallCount : Nat)
      (lastError : Option String)
  | workerThrew (d : String) (errorMessage : String)
  | sweep (now : Nat)

/-- One transition, with the HTTP response (if any) the event writes. -/
def stepFull (s : GState) : Ev → GState × Option HttpResp
  | Ev.deliver p k now => deliverStep s p k now
  | Ev.workerDone d rt calls err =>
      let fr := finalResponseText rt calls err
      ({ s with dispatchStates := markDispatchCompleted s.dispatchStates d fr },
       some ⟨200, "success", d, some fr, none, none⟩)
  | Ev.workerThrew d msg =>
      ((if catchBlockSeesDispatchId then
          { s with dispatchStates := eraseM s.dispatchStates d }
        else s),
       some ⟨500, "error", "unknown", none, some msg, none⟩)
  | Ev.sweep now =>
      ({ s with dispatchStates := sweepExpired s.dispatchStates now }, none)

def runEvents (s : GState) : List Ev → GState
  | [] => s
  | e :: t => runEvents (stepFull s e).1 t

/-- The responses written along a run, in order (one `Option HttpResp` per
event). -/
def runLog (s : GState) : List Ev → List (Option HttpResp)
  | [] => []
  | e :: t => (stepFull s e).2 :: runLog (stepFull s e).1 t

/-- Number of `new` classifications the dedup check produces for identifier
`d` along a run. -/
def countNewFor (d : String) (s : GState) : List Ev → Nat
  | [] => 0
  | e :: t =>
      (match e with
       | Ev.deliver p _ now =>
           if dispatchIdOf p now = d then
             if (checkDispatchState s.dispatchStates d now).1.status = CheckStatus.newDispatch
             then 1 else 0
           else 0
       | _ => 0) + countNewFor d (stepFull s e).1 t

def hasSweep : List Ev → Bool
  | [] => false
  | Ev.sweep _ :: _ => true
  | _ :: t => hasSweep t

/-! ## Session registry transitions

The only two code sites that touch `dispatchSessions` / `sessionKeyIndex`
during operation are the registration of a `new` dispatch (part_003 lines
1216-1218) and the deferred cleanup timer scheduled when its processing ends
(lines 1371-1376 sync, 646-651 async).  The cleanup closure captures the same
`dispatchId` / `sessionKey` pair that was registered. -/

structure RState where
  sessions : List (String × DispatchSession)
  index : List (String × String)
deriving DecidableEq

inductive REv
  | register (d k : String) (sess : DispatchSession)
  | cleanup (d k : String)
deriving DecidableEq

/-- `register` is lines 1216-1218 (`dispatchSessions.set`, `sessionKeyIndex.set`);
`cleanup` is the timer body of lines 1371-1376: delete the session, and delete
the index entry only if it still points at this dispatch. -/
def stepReg (s : RState) : REv → RState
  | REv.register d k sess => ⟨insertM s.sessions d sess, insertM s.index k d⟩
  | REv.cleanup d k =>
      ⟨eraseM s.sessions d,
       if lookupM s.index k = some d then eraseM s.index k else s.index⟩

def emptyR : RState := ⟨[], []⟩

def runReg (t : List REv) : RState := t.foldl stepReg emptyR

/-- The dispatch identifier of the most recently registered session for key
`k` along the event list. -/
def lastReg (t : List REv) (k : String) : Option String :=
  t.foldl (fun acc e =>
    match e with
    | REv.register d k2 _ => if k2 = k then some d else acc
    | REv.cleanup _ _ => acc) none

/-- The session value registered for dispatch identifier `d` (the last one,
which under `ValidReg` is the only one). -/
def regSession (t : List REv) (d : String) : Option DispatchSession :=
  t.foldl (fun acc e =>
    match e with
    | REv.register d2 _ sess => if d2 = d then some sess else acc
    | REv.cleanup _ _ => acc) none

def regIds : List REv → List String
  | [] => []
  | REv.register d _ _ :: t => d :: regIds t
  | REv.cleanup _ _ :: t => regIds t

/-- A cleanup event only ever carries the (dispatchId, sessionKey) pair of the
register event whose timer scheduled it. -/
def consistentCR (e e2 : REv) : Bool :=
  match e, e2 with
  | REv.cleanup d k, REv.register d2 k2 _ => if d2 = d then k2 == k else true
  | _, _ => true

/-- Traces corresponding to real executions: dispatch identifiers register at
most once (the dedup tracker admits a given identifier once per TTL window,
and overlapping dispatches have distinct identifiers), and cleanups carry the
pair they were scheduled with. -/
def ValidReg (t : List REv) : Prop :=
  (regIds t).Nodup ∧ ∀ e ∈ t, ∀ e2 ∈ t, consistentCR e e2 = true

instance instDecidableValidReg (t : List REv) : Decidable (ValidReg t) := by
  unfold ValidReg
  infer_instance

/-- `getDispatchSession` (part_003 lines 675-686): direct hit on the sessions
map first, then the reverse index. -/
def getDispatchSession (s : RState) (sessionKey : String) : Option DispatchSession :=
  match lookupM s.sessions sessionKey with
  | some sess => some sess
  | none =>
      match lookupM s.index sessionKey with
      | some d => lookupM s.sessions d
      | none => none

/-! ## Observable actions of the new-dispatch path (mode selection)

`deliverStep` already returns the immediate ACK; this lists the ordered
observable actions of one `new`-classified dispatch with a valid message:
async mode (part_003 lines 1231-1275 plus `processDispatchAsync` lines
619-643) writes the `accepted` ACK before the worker runs and later sends at
most one completion callback; sync mode (lines 1276-1401) responds only after
the worker finished.  Heartbeats are elided. -/

inductive DAction
  | httpRespond (r : HttpResp)
  | completionCallback (completion_status : String) (response : Option String)
      (error : Option String)
deriving DecidableEq

/-- `completionStatus` in `processDispatchAsync` (lines 605-617): `failed` only
when no text was delivered and an error was recorded. -/
def asyncCompletionStatus (responseText : String) (lastError : Option String) : String :=
  if responseText = "" then
    match lastError with
    | some _ => "failed"
    | none => "success"
  else "success"

/-- JS `lastError || undefined`. -/
def jsOrUndef (a : Option String) : Option String :=
  if jsTruthy a then a else none

def newPathActions (p : AxDispatchPayload) (d : String) (responseText : String)
    (deliverCallCount : Nat) (lastError : Option String) : List DAction :=
  if jsTruthy p.callback_url then
    DAction.httpRespond ⟨200, "accepted", d, none, none, some ("async")⟩ ::
    (if jsTruthy p.callback_url && jsTruthy p.callback_api_key then
       [DAction.completionCallback (asyncCompletionStatus responseText lastError)
          (some (finalResponseText responseText deliverCallCount lastError))
          (jsOrUndef lastError)]
     else [])
  else
    [DAction.httpRespond ⟨200, "success", d,
       some (finalResponseText responseText deliverCallCount lastError), none, none⟩]

def countCallbacks : List DAction → Nat
  | [] => 0
  | DAction.completionCallback _ _ _ :: t => 1 + countCallbacks t
  | _ :: t => countCallbacks t

/-! ## Concrete payloads for evaluation -/

def basePayload : AxDispatchPayload :=
  { dispatch_id := "d", agent_id := "agent-1", agent_handle := some ("@dev"),
    agent_name := none, space_id := some ("space-1"), space_name := some ("Dev"),
    sender_handle := some ("alice"), sender_type := some ("user"),
    auth_token := some ("tok"), mcp_endpoint := some ("https://mcp"),
    user_message := some ("hi"), content := none, callback_url := none,
    callback_api_key := none, heartbeat_url := none, message_id := none,
    org_id := none, context_data := none }

/-! ## C9 -/

/-- C9: the response sanitizer maps the input
`"Reasoning: _internal thoughts_ Final answer."` to exactly `"Final answer."`
(the leading reasoning italic block is stripped and the remainder trimmed). -/
theorem C9_sanitizer_example :
    sanitizeAgentResponse ("Reasoning: _internal thoughts_ Final answer.") =
      ("Final answer.") := by
  decide

/-! ## C10 -/

/-- C10: `markDispatchCompleted` on an identifier with no tracker entry is a
no-op — the map is returned unchanged — and for any identifier it never
modifies the entry of a different identifier, so a late worker completion
cannot resurrect a cached response for an already-purged dispatch. -/
theorem C10_markCompleted_frame (m : List (String × DispatchState)) (d r : String) :
    (lookupM m d = none → markDispatchCompleted m d r = m) ∧
    (∀ d2, d2 ≠ d → lookupM (markDispatchCompleted m d r) d2 = lookupM m d2) := by
  constructor
  · intro h
    simp [markDispatchCompleted, h]
  · intro d2 hne
    unfold markDispatchCompleted
    cases hl : lookupM m d with
    | none => rfl
    | some st => simp [lookupM_insertM_ne m d d2 _ hne]

/-- C10 witness: evaluation at a missing identifier and at a neighbour entry. -/
theorem C10_witness :
    markDispatchCompleted [] ("dX") ("text") = [] ∧
    lookupM (markDispatchCompleted
        [(("dA" : String), (⟨DStatus.inProgress, 0, none⟩ : DispatchState))]
        ("dA") ("text")) ("dB") =
      lookupM [(("dA" : String), (⟨DStatus.inProgress, 0, none⟩ : DispatchState))] ("dB") :=
  ⟨(C10_markCompleted_frame [] ("dX") ("text")).1 rfl,
   (C10_markCompleted_frame
      [(("dA" : String), (⟨DStatus.inProgress, 0, none⟩ : DispatchState))]
      ("dA") ("text")).2 ("dB") (by decide)⟩

/-! ## C5 -/

def pC5 : AxDispatchPayload := { basePayload with dispatch_id := "d5" }

def c5trace : List Ev :=
  [Ev.deliver pC5 ("k5") 0,
   Ev.workerDone ("d5") ("Reasoning: _a_") 1 none,
   Ev.deliver pC5 ("k5") 2000,
   Ev.deliver pC5 ("k5") 3000]

/-- C5 counterexample: a dispatch whose delivered text sanitizes to the empty
string is cached with `r = ""`; subsequent deliveries then return the
`"[Already processed]"` placeholder (the JS `||` fallback), not the cached
response `r`, refuting "both return the byte-identical response r" at `r = ""`.
(The two responses are still identical to each other.) -/
theorem C5_counterexample :
    lookupM (runEvents emptyG (List.take 2 c5trace)).dispatchStates ("d5") =
      some ⟨DStatus.completedS, 0, some ("")⟩ ∧
    runLog (runEvents emptyG (List.take 2 c5trace)) (List.drop 2 c5trace) =
      [some ⟨200, "success", "d5", some ("[Already processed]"), none, none⟩,
       some ⟨200, "success", "d5", some ("[Already processed]"), none, none⟩] ∧
    ("[Already processed]" : String) ≠ ("") := by
  decide

/-- C5 (amended): for a tracker entry completed with cached text `r`, any two
subsequent deliveries of the identifier return byte-identical responses and
leave the state untouched; the body is `r` itself whenever `r` is nonempty, and
the fixed placeholder `"[Already processed]"` when `r = ""`. -/
theorem C5_completed_idempotent (st : GState) (p : AxDispatchPayload)
    (k1 k2 : String) (n1 n2 t0 : Nat) (r : String)
    (hd : p.dispatch_id ≠ "")
    (h : lookupM st.dispatchStates p.dispatch_id =
      some ⟨DStatus.completedS, t0, some r⟩) :
    deliverStep st p k1 n1 =
      (st, some ⟨200, "success", p.dispatch_id,
        some (if r = "" then "[Already processed]" else r), none, none⟩) ∧
    deliverStep (deliverStep st p k1 n1).1 p k2 n2 =
      (st, some ⟨200, "success", p.dispatch_id,
        some (if r = "" then "[Already processed]" else r), none, none⟩) := by
  have step1 : deliverStep st p k1 n1 =
      (st, some ⟨200, "success", p.dispatch_id,
        some (if r = "" then "[Already processed]" else r), none, none⟩) := by
    simp [deliverStep, dispatchIdOf, hd, checkDispatchState, h]
  refine ⟨step1, ?_⟩
  rw [step1]
  simp [deliverStep, dispatchIdOf, hd, checkDispatchState, h]

/-- C5 witness: a completed entry with cached text `"pong"` evaluated at two
deliveries. -/
theorem C5_witness :
    deliverStep ⟨[(("d5" : String), (⟨DStatus.completedS, 0, some ("pong")⟩ : DispatchState))], [], []⟩
        pC5 ("k5") 100 =
      (⟨[(("d5" : String), (⟨DStatus.completedS, 0, some ("pong")⟩ : DispatchState))], [], []⟩,
       some ⟨200, "success", "d5",
         some (if ("pong" : String) = "" then "[Already processed]" else "pong"), none, none⟩) :=
  (C5_completed_idempotent
      ⟨[(("d5" : String), (⟨DStatus.completedS, 0, some ("pong")⟩ : DispatchState))], [], []⟩
      pC5 ("k5") ("k5") 100 200 0 ("pong") (by decide) (by decide)).1

/-! ## C3 -/

def pC3 : AxDispatchPayload :=
  { basePayload with dispatch_id := "d3", user_message := none, content := none }

/-- C3 counterexample: a POST payload with no message content, arriving fresh
on an empty state, gets the immediate 400 — but the dedup map now holds a new
`in_progress` entry, the session map holds the new session and the sessionKey
index points at the dispatch: all three maps were mutated before validation
(part_003 runs the message check at line 1222, after the writes at lines
1124, 1216 and 1218). -/
theorem C3_counterexample :
    (deliverStep emptyG pC3 ("k3") 5).2 =
      some ⟨400, "error", "d3", none, some ("No message content"), none⟩ ∧
    lookupM (deliverStep emptyG pC3 ("k3") 5).1.dispatchStates ("d3") =
      some ⟨DStatus.inProgress, 5, none⟩ ∧
    lookupM (deliverStep emptyG pC3 ("k3") 5).1.dispatchSessions ("d3") =
      some (mkSession pC3 ("d3") ("k3") 5) ∧
    lookupM (deliverStep emptyG pC3 ("k3") 5).1.sessionKeyIndex ("k3") = some ("d3") := by
  decide

/-- C3 (amended): an empty-message payload classified `new` receives the
immediate 400 error response, but by then the request has already created the
`in_progress` dedup entry, stored the session and updated the sessionKey
index; none of the three writes is rolled back. -/
theorem C3_validation_mutates (st : GState) (p : AxDispatchPayload) (k : String)
    (now : Nat)
    (hd : p.dispatch_id ≠ "")
    (hnew : lookupM st.dispatchStates p.dispatch_id = none)
    (hmsg : jsStr p.user_message (jsStr p.content ("")) = "") :
    (deliverStep st p k now).2 =
      some ⟨400, "error", p.dispatch_id, none, some ("No message content"), none⟩ ∧
    lookupM (deliverStep st p k now).1.dispatchStates p.dispatch_id =
      some ⟨DStatus.inProgress, now, none⟩ ∧
    lookupM (deliverStep st p k now).1.dispatchSessions p.dispatch_id =
      some (mkSession p p.dispatch_id k now) ∧
    lookupM (deliverStep st p k now).1.sessionKeyIndex k = some p.dispatch_id := by
  simp [deliverStep, dispatchIdOf, hd, checkDispatchState, hnew, hmsg,
    lookupM_insertM_self]

/-- C3 witness: the amended statement evaluated at the concrete empty-message
payload. -/
theorem C3_witness :
    (deliverStep emptyG pC3 ("k9") 7).2 =
      some ⟨400, "error", "d3", none, some ("No message content"), none⟩ ∧
    lookupM (deliverStep emptyG pC3 ("k9") 7).1.dispatchStates ("d3") =
      some ⟨DStatus.inProgress, 7, none⟩ ∧
    lookupM (deliverStep emptyG pC3 ("k9") 7).1.dispatchSessions ("d3") =
      some (mkSession pC3 ("d3") ("k9") 7) ∧
    lookupM (deliverStep emptyG pC3 ("k9") 7).1.sessionKeyIndex ("k9") = some ("d3") :=
  C3_validation_mutates emptyG pC3 ("k9") 7 (by decide) (by decide) (by decide)

/-! ## C7 -/

def pC7 : AxDispatchPayload :=
  { basePayload with
    dispatch_id := "d7"
    callback_url := some ("https://cb.example")
    callback_api_key := none }

/-- C7 counterexample: a valid payload carrying a callback URL but no callback
API key is ACKed in async mode, yet zero completion callbacks are ever sent
(part_003 line 623 requires both `callback_url` and `callback_api_key`; the
else branch only logs the CRITICAL warning) — refuting "exactly one completion
callback is later sent". -/
theorem C7_counterexample :
    jsTruthy pC7.callback_url = true ∧
    countCallbacks (newPathActions pC7 ("d7") ("Hello") 1 none) = 0 := by
  decide

/-- C7 (amended): for a `new`-classified valid payload, a (truthy) callback
URL selects async mode — the first observable action is the fixed
`accepted/async` HTTP response, independent of the worker outcome — and
exactly one completion callback follows when the payload also carries a
callback API key, none otherwise; without a callback URL the handler blocks
and its only action is the HTTP response carrying the worker's final text. -/
theorem C7_mode_selection (p : AxDispatchPayload) (d responseText : String)
    (deliverCallCount : Nat) (lastError : Option String) :
    (jsTruthy p.callback_url = true →
      (newPathActions p d responseText deliverCallCount lastError).head? =
        some (DAction.httpRespond ⟨200, "accepted", d, none, none, some ("async")⟩) ∧
      countCallbacks (newPathActions p d responseText deliverCallCount lastError) =
        (if jsTruthy p.callback_api_key then 1 else 0)) ∧
    (jsTruthy p.callback_url = false →
      newPathActions p d responseText deliverCallCount lastError =
        [DAction.httpRespond ⟨200, "success", d,
          some (finalResponseText responseText deliverCallCount lastError), none, none⟩]) := by
  constructor
  · intro h
    constructor
    · simp [newPathActions, h]
    · by_cases hk : jsTruthy p.callback_api_key = true
      · simp [newPathActions, h, hk, countCallbacks]
      · simp only [Bool.not_eq_true] at hk
        simp [newPathActions, h, hk, countCallbacks]
  · intro h
    simp [newPathActions, h]

/-- C7 witness: the async conjunct evaluated with both callback URL and key
present, showing the leading ACK and exactly one completion callback. -/
theorem C7_witness :
    (newPathActions { pC7 with callback_api_key := some ("key-1") }
        ("d7") ("Hello") 1 none).head? =
      some (DAction.httpRespond ⟨200, "accepted", "d7", none, none, some ("async")⟩) ∧
    countCallbacks (newPathActions { pC7 with callback_api_key := some ("key-1") }
        ("d7") ("Hello") 1 none) =
      (if jsTruthy ({ pC7 with callback_api_key := some ("key-1") }).callback_api_key
       then 1 else 0) :=
  (C7_mode_selection { pC7 with callback_api_key := some ("key-1") }
      ("d7") ("Hello") 1 none).1 (by decide)

/-! ## C8 -/

set_option maxRecDepth 16000 in
/-- The fixed context-overflow recovery notice passes through the sanitizer
verbatim (it contains no reasoning markers, metadata labels or underscores). -/
theorem sanitize_context_notice_id :
    sanitizeAgentResponse (buildRecoveryNotice ErrKind.context) =
      buildRecoveryNotice ErrKind.context := by
  decide

/-- C8: two outbound messages for the same space that both classify into the
context-overflow family, sent within the cooldown window of each other (the
first arriving with no live cooldown entry for the space): the first is
replaced by the fixed user-friendly recovery notice and actually sent — the
sanitizer passes the notice through verbatim — and the second is suppressed
entirely, reported as delivered (`ok`) with the suppressed marker and with
nothing handed to the outbound MCP call. -/
theorem C8_recovery_cooldown (spaceId text1 text2 : String) (t1 t2 : Nat)
    (cool : List (String × Nat))
    (h1 : classifyInternalErrorText text1 = some ErrKind.context)
    (h2 : classifyInternalErrorText text2 = some ErrKind.context)
    (h0 : lookupM cool spaceId = none)
    (ht1 : RECOVERY_NOTICE_COOLDOWN_MS ≤ t1)
    (hwin : t2 - t1 < RECOVERY_NOTICE_COOLDOWN_MS) :
    (sendTextModel spaceId text1 t1 cool).1 =
      { ok := true, suppressed := false,
        sentContent := some (buildRecoveryNotice ErrKind.context) } ∧
    (sendTextModel spaceId text2 t2 (sendTextModel spaceId text1 t1 cool).2).1 =
      { ok := true, suppressed := true, sentContent := none } := by
  have hnotice := sanitize_context_notice_id
  have hnot : ¬ t1 < RECOVERY_NOTICE_COOLDOWN_MS := by omega
  have step1 : sendTextModel spaceId text1 t1 cool =
      ({ ok := true, suppressed := false,
         sentContent := some (buildRecoveryNotice ErrKind.context) },
       insertM cool spaceId t1) := by
    simp [sendTextModel, h1, h0, hnot, hnotice]
  refine ⟨by rw [step1], ?_⟩
  rw [step1]
  simp [sendTextModel, h2, lookupM_insertM_self, hwin]

/-- C8 witness: two raw `"context overflow"` diagnostics for the same space one
millisecond apart. -/
theorem C8_witness :
    (sendTextModel ("space-9") ("context overflow") 120000 []).1 =
      { ok := true, suppressed := false,
        sentContent := some (buildRecoveryNotice ErrKind.context) } ∧
    (sendTextModel ("space-9") ("context overflow") 120001
        (sendTextModel ("space-9") ("context overflow") 120000 []).2).1 =
      { ok := true, suppressed := true, sentContent := none } :=
  C8_recovery_cooldown ("space-9") ("context overflow") ("context overflow")
    120000 120001 [] (by decide) (by decide) (by decide) (by decide) (by decide)

/-! ## C1 -/

def pC1 : AxDispatchPayload := { basePayload with dispatch_id := "d1" }

def c1trace : List Ev :=
  [Ev.deliver pC1 ("k1") 0,
   Ev.deliver pC1 ("k1") 30000,
   Ev.workerDone ("d1") ("All done.") 1 none,
   Ev.deliver pC1 ("k1") 31000]

/-- C1 counterexample: the redelivery at the 30s threshold stamps the synthetic
timeout message and completes the entry; but when the still-running worker
later finishes, `markDispatchCompleted` overwrites the cached timeout text with
the worker's final response, and the next delivery returns `"All done."` rather
than the cached timeout text — the cache is not frozen at timeout, refuting
"every later delivery of d returns that identical cached timeout text". -/
theorem C1_counterexample :
    runLog emptyG c1trace =
      [none,
       some ⟨200, "success", "d1", some ("[Request timed out after 0 minutes]"), none, none⟩,
       some ⟨200, "success", "d1", some ("All done."), none, none⟩,
       some ⟨200, "success", "d1", some ("All done."), none, none⟩] ∧
    (("All done." : String) ≠ ("[Request timed out after 0 minutes]")) := by
  decide

/-- C1 (amended): a redelivery before the threshold yields the empty suppressed
response and leaves the state unchanged; a redelivery at or past the threshold
stamps the synthetic timeout message as the cached response and flips the entry
to completed, so the timed-out branch cannot fire again while the entry stays
completed; every delivery that finds the entry completed returns the currently
cached text unchanged — but the cache is not frozen: a late completion of the
still-running worker overwrites the cached timeout text with the worker's
final response, which subsequent deliveries then return. -/
theorem C1_timeout_lifecycle (st : GState) (p : AxDispatchPayload) (k : String)
    (now t0 : Nat) (r0 : Option String) (r responseText : String)
    (deliverCallCount : Nat) (lastError : Option String)
    (hd : p.dispatch_id ≠ "") :
    (lookupM st.dispatchStates p.dispatch_id = some ⟨DStatus.inProgress, t0, r0⟩ →
      now - t0 < BACKEND_TIMEOUT_MS →
      deliverStep st p k now =
        (st, some ⟨200, "success", p.dispatch_id, some (""), none, none⟩)) ∧
    (lookupM st.dispatchStates p.dispatch_id = some ⟨DStatus.inProgress, t0, r0⟩ →
      BACKEND_TIMEOUT_MS ≤ now - t0 →
      (deliverStep st p k now).2 =
        some ⟨200, "success", p.dispatch_id, some (timeoutMessage (now - t0)), none, none⟩ ∧
      lookupM (deliverStep st p k now).1.dispatchStates p.dispatch_id =
        some ⟨DStatus.completedS, t0, some (timeoutMessage (now - t0))⟩) ∧
    (lookupM st.dispatchStates p.dispatch_id = some ⟨DStatus.completedS, t0, some r⟩ →
      r ≠ "" →
      deliverStep st p k now =
        (st, some ⟨200, "success", p.dispatch_id, some r, none, none⟩)) ∧
    (lookupM st.dispatchStates p.dispatch_id = some ⟨DStatus.completedS, t0, some r⟩ →
      lookupM (stepFull st
          (Ev.workerDone p.dispatch_id responseText deliverCallCount lastError)).1.dispatchStates
          p.dispatch_id =
        some ⟨DStatus.completedS, t0,
          some (finalResponseText responseText deliverCallCount lastError)⟩) := by
  refine ⟨?_, ?_, ?_, ?_⟩
  · intro h hlt
    have hnot : ¬ BACKEND_TIMEOUT_MS ≤ now - t0 := by omega
    simp [deliverStep, dispatchIdOf, hd, checkDispatchState, h, hnot]
  · intro h hge
    constructor
    · simp [deliverStep, dispatchIdOf, hd, checkDispatchState, h, hge]
    · simp [deliverStep, dispatchIdOf, hd, checkDispatchState, h, hge,
        markDispatchCompleted, lookupM_insertM_self]
  · intro h hne
    simp [deliverStep, dispatchIdOf, hd, checkDispatchState, h, hne]
  · intro h
    simp [stepFull, markDispatchCompleted, h, lookupM_insertM_self]

/-- C1 witness: a pre-threshold redelivery of an `in_progress` entry evaluated
concretely (the suppressed empty response, state untouched). -/
theorem C1_witness :
    deliverStep ⟨[(("d1" : String), (⟨DStatus.inProgress, 0, none⟩ : DispatchState))], [], []⟩
        pC1 ("k1") 10000 =
      (⟨[(("d1" : String), (⟨DStatus.inProgress, 0, none⟩ : DispatchState))], [], []⟩,
       some ⟨200, "success", "d1", some (""), none, none⟩) :=
  (C1_timeout_lifecycle
      ⟨[(("d1" : String), (⟨DStatus.inProgress, 0, none⟩ : DispatchState))], [], []⟩
      pC1 ("k1") 10000 0 none ("r") ("t") 0 none (by decide)).1 (by decide) (by decide)

/-! ## C2 -/

def pC2 : AxDispatchPayload := { basePayload with dispatch_id := "d2" }

def c2trace : List Ev :=
  [Ev.deliver pC2 ("k2") 0, Ev.workerThrew ("d2") ("boom"), Ev.deliver pC2 ("k2") 1000]

/-- C2: evaluation at the failing input.  A dispatch is classified `new`, then
the dispatcher throws.  Because `const dispatchId` is declared inside the `try`
block, the catch guard `typeof dispatchId !== "undefined"` is false
(`catchBlockSeesDispatchId`), the tracker entry is NOT deleted, and the next
delivery of the identifier is classified `in_progress` — not `new` as both the
code comment ("Clean up dispatch state on error so retries are not incorrectly
rejected") and the spec intend. -/
theorem C2_error_path_keeps_entry :
    catchBlockSeesDispatchId = false ∧
    lookupM (runEvents emptyG (List.take 2 c2trace)).dispatchStates ("d2") =
      some ⟨DStatus.inProgress, 0, none⟩ ∧
    (checkDispatchState
        (runEvents emptyG (List.take 2 c2trace)).dispatchStates ("d2") 1000).1.status =
      CheckStatus.stillInProgress := by
  decide

/-! ## C6: supporting lemmas -/

/-- The dedup check classifies an identifier as `new` exactly when it has no
tracker entry. -/
theorem checkDispatchState_new_iff (m : List (String × DispatchState)) (i : String)
    (now : Nat) :
    (checkDispatchState m i now).1.status = CheckStatus.newDispatch ↔
      lookupM m i = none := by
  unfold checkDispatchState
  cases hl : lookupM m i with
  | none => simp
  | some st =>
      obtain ⟨sts, sa, sr⟩ := st
      cases sts
      · by_cases he : BACKEND_TIMEOUT_MS ≤ now - sa <;> simp [he]
      · simp

/-- The dedup check never removes an entry: any present identifier is still
present in the map it returns. -/
theorem checkDispatchState_snd_presence (m : List (String × DispatchState))
    (i : String) (now : Nat) (d : String)
    (h : (lookupM m d).isSome = true) :
    (lookupM (checkDispatchState m i now).2 d).isSome = true := by
  unfold checkDispatchState
  cases hl : lookupM m i with
  | none =>
      by_cases hdi : d = i
      · subst hdi
        simp [lookupM_insertM_self]
      · simpa [lookupM_insertM_ne m i d _ hdi] using h
  | some st =>
      obtain ⟨sts, sa, sr⟩ := st
      cases sts
      · by_cases he : BACKEND_TIMEOUT_MS ≤ now - sa <;> simp [he, h]
      · simpa using h

/-- `markDispatchCompleted` neither creates nor removes entries: presence of any
identifier is unchanged. -/
theorem markDispatchCompleted_isSome (m : List (String × DispatchState))
    (i r : String) (d : String) :
    (lookupM (markDispatchCompleted m i r) d).isSome = (lookupM m d).isSome := by
  unfold markDispatchCompleted
  cases hl : lookupM m i with
  | none => rfl
  | some st =>
      by_cases hdi : d = i
      · subst hdi
        simp [lookupM_insertM_self, hl]
      · simp [lookupM_insertM_ne m i d _ hdi]

/-- The handler prefix never removes a present dedup entry. -/
theorem deliverStep_presence (s : GState) (p : AxDispatchPayload) (k : String)
    (now : Nat) (d : String)
    (h : (lookupM s.dispatchStates d).isSome = true) :
    (lookupM (deliverStep s p k now).1.dispatchStates d).isSome = true := by
  have hsnd := checkDispatchState_snd_presence s.dispatchStates (dispatchIdOf p now) now d h
  unfold deliverStep
  dsimp only
  split
  · exact hsnd
  · rw [markDispatchCompleted_isSome]
    exact hsnd
  · exact hsnd
  · split
    · exact hsnd
    · split
      · exact hsnd
      · exact hsnd

/-- A `new`-classified dispatch leaves its own identifier present (the fresh
`in_progress` entry). -/
theorem deliverStep_presence_new (s : GState) (p : AxDispatchPayload) (k : String)
    (now : Nat)
    (h : lookupM s.dispatchStates (dispatchIdOf p now) = none) :
    (lookupM (deliverStep s p k now).1.dispatchStates (dispatchIdOf p now)).isSome = true := by
  unfold deliverStep
  simp only [checkDispatchState, h]
  split
  · simp [lookupM_insertM_self]
  · split <;> simp [lookupM_insertM_self]

/-- Core bound for C6: along any sweep-free run, an identifier already present
is never again classified `new`, and an absent identifier is classified `new`
at most once. -/
theorem countNewFor_bound (d : String) :
    ∀ (t : List Ev) (s : GState), hasSweep t = false →
      countNewFor d s t ≤ (if (lookupM s.dispatchStates d).isSome = true then 0 else 1) := by
  intro t
  induction t with
  | nil =>
      intro s _
      simp [countNewFor]
  | cons e t ih =>
      intro s hsw
      cases e with
      | deliver p k now =>
          have hsw2 : hasSweep t = false := by simpa [hasSweep] using hsw
          by_cases hid : dispatchIdOf p now = d
          · by_cases hpres : (lookupM s.dispatchStates d).isSome = true
            · have hnn : ¬ (checkDispatchState s.dispatchStates d now).1.status =
                  CheckStatus.newDispatch := by
                intro hc
                rw [checkDispatchState_new_iff] at hc
                rw [hc] at hpres
                simp at hpres
              have hpres2 := deliverStep_presence s p k now d hpres
              have htail := ih (deliverStep s p k now).1 hsw2
              rw [if_pos hpres2] at htail
              simp only [countNewFor, stepFull]
              rw [if_pos hid, if_neg hnn, if_pos hpres]
              omega
            · have hnone : lookupM s.dispatchStates d = none := by
                cases hx : lookupM s.dispatchStates d
                · rfl
                · rw [hx] at hpres
                  simp at hpres
              have hnew : (checkDispatchState s.dispatchStates d now).1.status =
                  CheckStatus.newDispatch := (checkDispatchState_new_iff _ _ _).mpr hnone
              have hpres2 : (lookupM (deliverStep s p k now).1.dispatchStates d).isSome = true := by
                have := deliverStep_presence_new s p k now (by rwa [hid])
                rwa [hid] at this
              have htail := ih (deliverStep s p k now).1 hsw2
              rw [if_pos hpres2] at htail
              simp only [countNewFor, stepFull]
              rw [if_pos hid, if_pos hnew, if_neg hpres]
              omega
          · have hsw2 : hasSweep t = false := by simpa [hasSweep] using hsw
            have htail := ih (deliverStep s p k now).1 hsw2
            by_cases hpres : (lookupM s.dispatchStates d).isSome = true
            · have hpres2 := deliverStep_presence s p k now d hpres
              rw [if_pos hpres2] at htail
              simp only [countNewFor, stepFull]
              rw [if_neg hid, if_pos hpres]
              omega
            · have htail1 : countNewFor d (deliverStep s p k now).1 t ≤ 1 := by
                refine le_trans htail ?_
                split <;> omega
              simp only [countNewFor, stepFull]
              rw [if_neg hid, if_neg hpres]
              omega
      | workerDone d3 rt calls err =>
          have hsw2 : hasSweep t = false := by simpa [hasSweep] using hsw
          have heq := markDispatchCompleted_isSome s.dispatchStates d3
            (finalResponseText rt calls err) d
          have htail := ih (stepFull s (Ev.workerDone d3 rt calls err)).1 hsw2
          simp only [countNewFor]
          simp only [stepFull] at htail ⊢
          simpa [heq] using htail
      | workerThrew d3 msg =>
          have hsw2 : hasSweep t = false := by simpa [hasSweep] using hsw
          have htail := ih (stepFull s (Ev.workerThrew d3 msg)).1 hsw2
          simp only [countNewFor]
          simpa [stepFull, catchBlockSeesDispatchId] using htail
      | sweep now =>
          simp [hasSweep] at hsw

/-- C6 (amended): along any run in which the periodic TTL sweep never fires,
the dedup check classifies a given dispatch identifier as `new` at most once;
it is exactly the sweep deleting an expired entry (or the error path — which,
as C2 shows, never actually fires) that can make a later delivery of the same
identifier `new` again. -/
theorem C6_no_sweep_at_most_one_new (d : String) (t : List Ev)
    (h : hasSweep t = false) :
    countNewFor d emptyG t ≤ 1 := by
  have hb := countNewFor_bound d t emptyG h
  simpa [emptyG, lookupM] using hb

def pC6 : AxDispatchPayload := { basePayload with dispatch_id := "d6" }

def c6trace : List Ev :=
  [Ev.deliver pC6 ("k6") 0, Ev.sweep 900001, Ev.deliver pC6 ("k6") 900001]

/-- C6 counterexample: after the TTL sweep purges an entry older than
`DEDUP_TTL_MS` (15 minutes), a redelivery of the same identifier is classified
`new` a second time — refuting "at most one new classification over the entire
lifetime of the process, including after the periodic TTL sweep has run". -/
theorem C6_counterexample : ¬ (countNewFor ("d6") emptyG c6trace ≤ 1) := by
  decide

def c6wtrace : List Ev := [Ev.deliver pC6 ("k6") 0, Ev.deliver pC6 ("k6") 5]

/-- C6 witness: a sweep-free run with a duplicate delivery produces at most one
`new` classification. -/
theorem C6_witness :
    hasSweep c6wtrace = false ∧ countNewFor ("d6") emptyG c6wtrace ≤ 1 :=
  ⟨by decide, C6_no_sweep_at_most_one_new ("d6") c6wtrace (by decide)⟩

/-! ## C4: supporting lemmas -/

theorem runReg_append (t : List REv) (e : REv) :
    runReg (t ++ [e]) = stepReg (runReg t) e := by
  simp [runReg, List.foldl_append]

theorem lastReg_append_register (t : List REv) (d k0 : String)
    (sess : DispatchSession) (k : String) :
    lastReg (t ++ [REv.register d k0 sess]) k =
      (if k0 = k then some d else lastReg t k) := by
  simp [lastReg, List.foldl_append]

theorem lastReg_append_cleanup (t : List REv) (d k0 k : String) :
    lastReg (t ++ [REv.cleanup d k0]) k = lastReg t k := by
  simp [lastReg, List.foldl_append]

theorem regSession_append_register (t : List REv) (d0 k0 : String)
    (sess : DispatchSession) (d : String) :
    regSession (t ++ [REv.register d0 k0 sess]) d =
      (if d0 = d then some sess else regSession t d) := by
  simp [regSession, List.foldl_append]

theorem regSession_append_cleanup (t : List REv) (d0 k0 d : String) :
    regSession (t ++ [REv.cleanup d0 k0]) d = regSession t d := by
  simp [regSession, List.foldl_append]

/-- A key mapped by `lastReg` was registered with that dispatch identifier
somewhere in the trace. -/
theorem lastReg_mem (t : List REv) (k d : String) (h : lastReg t k = some d) :
    ∃ sess, REv.register d k sess ∈ t := by
  induction t using List.reverseRecOn with
  | nil => simp [lastReg] at h
  | append_singleton t e ih =>
      cases e with
      | register d0 k0 sess =>
          rw [lastReg_append_register] at h
          by_cases hk : k0 = k
          · rw [if_pos hk] at h
            subst hk
            refine ⟨sess, ?_⟩
            have hd : d0 = d := by
              injection h
            subst hd
            exact List.mem_append_right _ (by simp)
          · rw [if_neg hk] at h
            obtain ⟨s2, hmem⟩ := ih h
            exact ⟨s2, List.mem_append_left _ hmem⟩
      | cleanup d0 k0 =>
          rw [lastReg_append_cleanup] at h
          obtain ⟨s2, hmem⟩ := ih h
          exact ⟨s2, List.mem_append_left _ hmem⟩

theorem regIds_append (t1 t2 : List REv) :
    regIds (t1 ++ t2) = regIds t1 ++ regIds t2 := by
  induction t1 with
  | nil => rfl
  | cons e t ih =>
      cases e <;> simp [regIds, ih]

/-- A registered dispatch identifier appears in `regIds`. -/
theorem mem_regIds (t : List REv) (d k : String) (sess : DispatchSession)
    (h : REv.register d k sess ∈ t) : d ∈ regIds t := by
  induction t with
  | nil => simp at h
  | cons e t ih =>
      rcases List.mem_cons.mp h with he | ht
      · rw [← he]
        simp [regIds]
      · cases e <;> simp [regIds] <;> first
          | exact Or.inr (ih ht)
          | exact ih ht

theorem validReg_of_append (t : List REv) (e : REv) (h : ValidReg (t ++ [e])) :
    ValidReg t := by
  obtain ⟨h1, h2⟩ := h
  constructor
  · rw [regIds_append] at h1
    exact h1.of_append_left
  · intro a ha b hb
    exact h2 a (List.mem_append_left _ ha) b (List.mem_append_left _ hb)

/-- Invariant of the session registry: whenever the reverse index maps a
sessionKey to a dispatch identifier, that identifier is the most recently
registered one for the key, and the sessions map still holds exactly the
session that was registered for it. -/
theorem regInvariant :
    ∀ (t : List REv), ValidReg t → ∀ (k d : String),
      lookupM (runReg t).index k = some d →
      lastReg t k = some d ∧
      lookupM (runReg t).sessions d = regSession t d ∧
      (regSession t d).isSome = true := by
  intro t
  induction t using List.reverseRecOn with
  | nil =>
      intro _ k d hidx
      simp [runReg, emptyR, lookupM] at hidx
  | append_singleton t e ih =>
      intro hv k d hidx
      have hvt := validReg_of_append t e hv
      rw [runReg_append] at hidx
      cases e with
      | register d0 k0 sess =>
          simp only [stepReg] at hidx
          by_cases hk : k = k0
          · subst hk
            rw [lookupM_insertM_self] at hidx
            have hd : d0 = d := by injection hidx
            subst hd
            refine ⟨?_, ?_, ?_⟩
            · rw [lastReg_append_register, if_pos rfl]
            · rw [runReg_append]
              simp only [stepReg]
              rw [lookupM_insertM_self, regSession_append_register, if_pos rfl]
            · rw [regSession_append_register, if_pos rfl]
              rfl
          · rw [lookupM_insertM_ne _ _ _ _ hk] at hidx
            obtain ⟨ih1, ih2, ih3⟩ := ih hvt k d hidx
            have hdne : d ≠ d0 := by
              intro hdd
              subst hdd
              obtain ⟨s2, hmem⟩ := lastReg_mem t k d ih1
              have hin : d ∈ regIds t := mem_regIds t d k s2 hmem
              have hnd := hv.1
              rw [regIds_append] at hnd
              simp only [regIds] at hnd
              rcases List.nodup_append.mp hnd with ⟨_, _, hdisj⟩
              exact hdisj hin (by simp)
            refine ⟨?_, ?_, ?_⟩
            · rw [lastReg_append_register, if_neg (fun hc => hk hc.symm)]
              exact ih1
            · rw [runReg_append]
              simp only [stepReg]
              rw [lookupM_insertM_ne _ _ _ _ hdne,
                regSession_append_register, if_neg (fun hc => hdne hc.symm)]
              exact ih2
            · rw [regSession_append_register, if_neg (fun hc => hdne hc.symm)]
              exact ih3
      | cleanup d0 k0 =>
          simp only [stepReg] at hidx
          have hidx2 : lookupM (runReg t).index k = some d := by
            by_cases hck : lookupM (runReg t).index k0 = some d0
            · rw [if_pos hck] at hidx
              by_cases hk : k = k0
              · subst hk
                rw [lookupM_eraseM_self] at hidx
                exact absurd hidx (by simp)
              · rwa [lookupM_eraseM_ne _ _ _ hk] at hidx
            · rwa [if_neg hck] at hidx
          obtain ⟨ih1, ih2, ih3⟩ := ih hvt k d hidx2
          have hdne : d ≠ d0 := by
            intro hdd
            obtain ⟨s2, hmem⟩ := lastReg_mem t k d ih1
            have hcons := hv.2 (REv.cleanup d0 k0)
              (List.mem_append_right _ (by simp))
              (REv.register d k s2) (List.mem_append_left _ hmem)
            simp only [consistentCR] at hcons
            rw [if_pos hdd] at hcons
            have hkk : k = k0 := eq_of_beq hcons
            have hck : lookupM (runReg t).index k0 = some d0 := by
              rw [← hkk, ← hdd]
              exact hidx2
            rw [if_pos hck] at hidx
            rw [hkk, lookupM_eraseM_self] at hidx
            simp at hidx
          refine ⟨?_, ?_, ?_⟩
          · rw [lastReg_append_cleanup]
            exact ih1
          · rw [runReg_append]
            simp only [stepReg]
            rw [lookupM_eraseM_ne _ _ _ hdne, regSession_append_cleanup]
            exact ih2
          · rw [regSession_append_cleanup]
            exact ih3

/-- C4: at every state reachable by a valid trace (dispatch identifiers
register at most once; a cleanup carries the pair it was scheduled with), the
sessionKey-to-dispatchId reverse index maps each key to the most recently
registered dispatch for that key — an older dispatch's deferred cleanup never
evicts a newer dispatch's index entry — and reverse lookup by the sessionKey
resolves to exactly that dispatch's stored Session. -/
theorem C4_reverse_index (t : List REv) (hv : ValidReg t) (k d : String)
    (hidx : lookupM (runReg t).index k = some d)
    (hkey : lookupM (runReg t).sessions k = none) :
    lastReg t k = some d ∧
    getDispatchSession (runReg t) k = regSession t d ∧
    (regSession t d).isSome = true := by
  obtain ⟨h1, h2, h3⟩ := regInvariant t hv k d hidx
  refine ⟨h1, ?_, h3⟩
  rw [getDispatchSession, hkey, hidx]
  exact h2

def sessA : DispatchSession := mkSession basePayload ("dA") ("kk") 0

def sessB : DispatchSession := mkSession basePayload ("dB") ("kk") 5

def c4trace : List REv :=
  [REv.register ("dA") ("kk") sessA, REv.register ("dB") ("kk") sessB,
   REv.cleanup ("dA") ("kk")]

/-- C4 witness: two overlapping dispatches sharing sessionKey `kk`; the older
dispatch `dA` is cleaned up after `dB` was registered, yet the index still
resolves `kk` to `dB` and reverse lookup returns `dB`'s session. -/
theorem C4_witness :
    ValidReg c4trace ∧
    (lastReg c4trace ("kk") = some ("dB") ∧
     getDispatchSession (runReg c4trace) ("kk") = regSession c4trace ("dB") ∧
     (regSession c4trace ("dB")).isSome = true) :=
  ⟨by decide, C4_reverse_index c4trace (by decide) ("kk") ("dB") (by decide) (by decide)⟩
